import Mathlib

/-! App Service resource handlers and the Managed Disk destroy check.

A shallow embedding of `azurerm/resource_arm_app_service.go` (the handlers
`resourceArmAppServiceCreateUpdate`, `resourceArmAppServiceRead`,
`resourceArmAppServiceDelete`) and of `testCheckAzureRMManagedDiskDestroy`
from `azurerm/resource_arm_managed_disk_test.go`.

Modelling conventions.

* A Go `error` is the string its `Error()` method renders; `nil` is `none`.
* A Go pointer that may be `nil` is an `Option`.
* `schema.ResourceData` is a record with the identifier and one optional slot
  for every field of the schema declared in `resourceArmAppService`.
* The SDK clients are collaborators: records of functions over an arbitrary
  remote world `σ`, threaded through every call.
* Every call a handler makes to a collaborator is appended to a call log, so
  that "what was sent" and "what was not called" can be stated.
* `log.Printf` output is not modelled.
-/

namespace Azurerm

/-! ## Go values -/

/-- A Go `error` value, identified with what `Error()` renders. -/
structure GoError where
  Error : String
deriving DecidableEq, Repr

/-- The constant `http.StatusNotFound`. -/
def StatusNotFound : Nat := 404

/-- The function `fmt.Errorf` once the format string has been expanded. -/
def Errorf (msg : String) : GoError := ⟨msg⟩

/-- Lookup in a Go `map[string]string`: a missing key reads as the empty string. -/
def mapIndex (m : List (String × String)) (key : String) : String :=
  (m.lookup key).getD ""

/-- How a Go function that returns `error` can end: it returns (`nil` is
`none`), or the runtime panics on a nil pointer dereference. -/
inductive Returned where
  | ret (err : Option GoError)
  | panic
deriving DecidableEq, Repr

/-! ## Remote representation (`arm/web`) -/

/-- The part of `web.SiteConfig` the handlers touch. -/
structure SiteConfig where
  AlwaysOn : Option Bool
deriving DecidableEq, Repr

/-- The part of `web.SiteProperties` the handlers touch. -/
structure SiteProperties where
  SiteConfig : Option SiteConfig
  ServerFarmID : Option String
deriving DecidableEq, Repr

/-- The part of `web.Site` the handlers touch. `StatusCode` is the status of
the embedded `*http.Response`; `none` stands for a nil response, on which
reading `resp.StatusCode` panics. -/
structure Site where
  StatusCode : Option Nat
  ID : Option String
  Location : Option String
  Tags : Option (List (String × String))
  SiteProperties : Option SiteProperties
deriving DecidableEq, Repr

/-! ## Resource identifiers -/

/-- The part of `ResourceID` the handlers read. -/
structure ResourceID where
  ResourceGroup : String
  Path : List (String × String)
deriving DecidableEq, Repr

/-! ## Local state (`schema.ResourceData`) -/

/-- Local state of one App Service resource: the identifier and the fields of
the schema in `resourceArmAppService`. `none` is a field that is not set. -/
structure ResourceData where
  Id : String
  resource_group_name : Option String
  name : Option String
  skip_dns_registration : Option Bool
  skip_custom_domain_verification : Option Bool
  force_dns_registration : Option Bool
  ttl_in_seconds : Option String
  app_service_plan_id : Option String
  always_on : Option Bool
  location : Option String
  tags : Option (List (String × String))
deriving DecidableEq, Repr

/-- The call `d.Get(key)`: the stored value, else `dflt`, which is the schema
`Default` of the field or the zero value of its type. -/
def Get {α : Type} (field : Option α) (dflt : α) : α :=
  field.getD dflt

/-- The call `d.GetOk(key)`: the value and whether the field is set to
something other than the zero value of its type. -/
def GetOk {α : Type} [DecidableEq α] (field : Option α) (zero : α) : α × Bool :=
  match field with
  | none => (zero, false)
  | some v => (v, decide (v ≠ zero))

/-- The call `d.SetId(id)`. -/
def ResourceData.SetId (d : ResourceData) (id : String) : ResourceData :=
  { d with Id := id }

/-- The call `d.Set("name", v)`. -/
def ResourceData.Set_name (d : ResourceData) (v : String) : ResourceData :=
  { d with name := some v }

/-- The call `d.Set("resource_group_name", v)`. -/
def ResourceData.Set_resource_group_name (d : ResourceData) (v : String) : ResourceData :=
  { d with resource_group_name := some v }

/-! ## Collaborators -/

/-- The methods of `appsClient` the handlers call, over a remote world `σ`.
`CreateOrUpdate` yields the value received from its error channel. -/
structure AppsClient (σ : Type) where
  CreateOrUpdate : String → String → Site → Bool → Bool → Bool → String → σ → Option GoError × σ
  Get : String → String → σ → (Site × Option GoError) × σ
  Delete : String → String → Bool → Bool → Bool → σ → Option GoError × σ

/-- Package-level helpers of `azurerm` that the handlers call and whose
sources are in other files of the package. -/
structure Helpers where
  parseAzureResourceID : String → Except GoError ResourceID
  expandTags : List (String × String) → Option (List (String × String))

/-- One call to a collaborator, with its arguments. -/
inductive Call where
  | parseAzureResourceID (id : String)
  | CreateOrUpdate (resGroup name : String) (siteEnvelope : Site)
      (skipDNSRegistration skipCustomDomainVerification forceDNSRegistration : Bool)
      (ttlInSeconds : String)
  | Get (resGroup name : String)
  | Delete (resGroup name : String)
      (deleteMetrics deleteEmptyServerFarm skipDNSRegistration : Bool)
deriving DecidableEq, Repr

/-- Whether a logged call is `appsClient.CreateOrUpdate`. -/
def Call.isCreateOrUpdate : Call → Bool
  | .CreateOrUpdate _ _ _ _ _ _ _ => true
  | _ => false

/-- Whether a logged call is `appsClient.Get`. -/
def Call.isGet : Call → Bool
  | .Get _ _ => true
  | _ => false

/-- Whether a logged call is `parseAzureResourceID`, which only
`resourceArmAppServiceRead` and `resourceArmAppServiceDelete` make. -/
def Call.isParse : Call → Bool
  | .parseAzureResourceID _ => true
  | _ => false

/-- What running a handler leaves behind: how it ended, the local state, the
remote world and the calls it made, in order. -/
structure Outcome (σ : Type) where
  result : Returned
  d : ResourceData
  remote : σ
  calls : List Call

/-! ## The handlers -/

/-- The handler `resourceArmAppServiceRead`. -/
def resourceArmAppServiceRead {σ : Type} (pkg : Helpers) (appClient : AppsClient σ)
    (d : ResourceData) (w : σ) : Outcome σ :=
  match pkg.parseAzureResourceID d.Id with
  | .error err => ⟨.ret (some err), d, w, [.parseAzureResourceID d.Id]⟩
  | .ok id =>
    let resGroup := id.ResourceGroup
    let name := mapIndex id.Path "sites"
    let calls := [.parseAzureResourceID d.Id, .Get resGroup name]
    match appClient.Get resGroup name w with
    | ((resp, some err), w1) =>
      match resp.StatusCode with
      | none => ⟨.panic, d, w1, calls⟩
      | some code =>
        if code = StatusNotFound then
          ⟨.ret none, d.SetId "", w1, calls⟩
        else
          ⟨.ret (some (Errorf ("Error making Read request on AzureRM App Service "
              ++ name ++ ": " ++ err.Error))), d, w1, calls⟩
    | ((_, none), w1) =>
      ⟨.ret none, (d.Set_name name).Set_resource_group_name resGroup, w1, calls⟩

/-- The request payload `siteEnvelope` that `resourceArmAppServiceCreateUpdate`
builds from the state before it calls the client. -/
def siteEnvelope (pkg : Helpers) (d : ResourceData) : Site :=
  let location := Get d.location ""
  let tags := Get d.tags []
  let siteConfig : SiteConfig := { AlwaysOn := none }
  let siteConfig : SiteConfig :=
    match GetOk d.always_on false with
    | (v, true) => { siteConfig with AlwaysOn := some v }
    | (_, false) => siteConfig
  let siteProps : SiteProperties := { SiteConfig := some siteConfig, ServerFarmID := none }
  let siteProps : SiteProperties :=
    match GetOk d.app_service_plan_id "" with
    | (v, true) => { siteProps with ServerFarmID := some v }
    | (_, false) => siteProps
  { StatusCode := none, ID := none, Location := some location,
    Tags := pkg.expandTags tags, SiteProperties := some siteProps }

/-- The log entry of the `appClient.CreateOrUpdate` call that
`resourceArmAppServiceCreateUpdate` makes for the state `d`. -/
def createCall (pkg : Helpers) (d : ResourceData) : Call :=
  .CreateOrUpdate (Get d.resource_group_name "") (Get d.name "") (siteEnvelope pkg d)
    (Get d.skip_dns_registration true) (Get d.skip_custom_domain_verification true)
    (Get d.force_dns_registration false) (Get d.ttl_in_seconds "")

/-- The `appClient.CreateOrUpdate` call of `resourceArmAppServiceCreateUpdate`
for the state `d`, with the error received from its error channel. -/
def createOrUpdate {σ : Type} (pkg : Helpers) (appClient : AppsClient σ)
    (d : ResourceData) (w : σ) : Option GoError × σ :=
  appClient.CreateOrUpdate (Get d.resource_group_name "") (Get d.name "") (siteEnvelope pkg d)
    (Get d.skip_dns_registration true) (Get d.skip_custom_domain_verification true)
    (Get d.force_dns_registration false) (Get d.ttl_in_seconds "") w

/-- The handler `resourceArmAppServiceCreateUpdate`. -/
def resourceArmAppServiceCreateUpdate {σ : Type} (pkg : Helpers) (appClient : AppsClient σ)
    (d : ResourceData) (w : σ) : Outcome σ :=
  let resGroup := Get d.resource_group_name ""
  let name := Get d.name ""
  match createOrUpdate pkg appClient d w with
  | (some err, w1) => ⟨.ret (some err), d, w1, [createCall pkg d]⟩
  | (none, w1) =>
    match appClient.Get resGroup name w1 with
    | ((_, some err), w2) =>
      ⟨.ret (some err), d, w2, [createCall pkg d, .Get resGroup name]⟩
    | ((read, none), w2) =>
      match read.ID with
      | none =>
        ⟨.ret (some (Errorf ("Cannot read App Service " ++ name ++ " (resource group "
            ++ resGroup ++ ") ID"))), d, w2, [createCall pkg d, .Get resGroup name]⟩
      | some readID =>
        let r := resourceArmAppServiceRead pkg appClient (d.SetId readID) w2
        { r with calls := [createCall pkg d, .Get resGroup name] ++ r.calls }

/-- The handler `resourceArmAppServiceDelete`. -/
def resourceArmAppServiceDelete {σ : Type} (pkg : Helpers) (appClient : AppsClient σ)
    (d : ResourceData) (w : σ) : Outcome σ :=
  match pkg.parseAzureResourceID d.Id with
  | .error err => ⟨.ret (some err), d, w, [.parseAzureResourceID d.Id]⟩
  | .ok id =>
    let resGroup := id.ResourceGroup
    let name := mapIndex id.Path "sites"
    let deleteMetrics := true
    let deleteEmptyServerFarm := true
    let skipDNSRegistration := true
    match appClient.Delete resGroup name deleteMetrics deleteEmptyServerFarm
        skipDNSRegistration w with
    | (err, w1) =>
      ⟨.ret err, d, w1, [.parseAzureResourceID d.Id,
        .Delete resGroup name deleteMetrics deleteEmptyServerFarm skipDNSRegistration]⟩

/-! ## The destroy check of the Managed Disk acceptance tests -/

/-- The part of `terraform.InstanceState` the check reads. -/
structure InstanceState where
  Attributes : List (String × String)
deriving DecidableEq, Repr

/-- The part of `terraform.ResourceState` the check reads. `Typ` is the Go
field `Type`; `Primary` is a pointer. -/
structure ResourceState where
  Typ : String
  Primary : Option InstanceState
deriving DecidableEq, Repr

/-- The part of `disk.Model` the check reads. `Properties` is kept as the
text `%#v` renders for it. -/
structure DiskModel where
  StatusCode : Option Nat
  Properties : String
deriving DecidableEq, Repr

/-- The method of `diskClient` the check calls, over a remote world `σ`. -/
structure DiskClient (σ : Type) where
  Get : String → String → σ → (DiskModel × Option GoError) × σ

/-- The function `testCheckAzureRMManagedDiskDestroy`. The argument list is
`s.RootModule().Resources` in the order the `range` loop visits it. -/
def testCheckAzureRMManagedDiskDestroy {σ : Type} (conn : DiskClient σ) :
    List ResourceState → σ → Returned × σ
  | [], w => (.ret none, w)
  | rs :: rest, w =>
    if rs.Typ ≠ "azurerm_managed_disk" then
      testCheckAzureRMManagedDiskDestroy conn rest w
    else
      match rs.Primary with
      | none => (.panic, w)
      | some primary =>
        let name := mapIndex primary.Attributes "name"
        let resourceGroup := mapIndex primary.Attributes "resource_group_name"
        match conn.Get resourceGroup name w with
        | ((_, some _), w1) => (.ret none, w1)
        | ((resp, none), w1) =>
          match resp.StatusCode with
          | none => (.panic, w1)
          | some code =>
            if code ≠ StatusNotFound then
              (.ret (some (Errorf ("Managed Disk still exists: \n" ++ resp.Properties))), w1)
            else
              testCheckAzureRMManagedDiskDestroy conn rest w1

/-! ## Concrete collaborators used to instantiate the theorems -/

/-- Splits a list of characters at every `/`. -/
def splitSlash : List Char → List (List Char)
  | [] => [[]]
  | c :: cs =>
    match splitSlash cs with
    | [] => [[c]]
    | seg :: segs => if c = '/' then [] :: seg :: segs else (c :: seg) :: segs

/-- Groups segments two by two; `none` when one is left over or empty. -/
def pairSegments : List (List Char) → Option (List (String × String))
  | [] => some []
  | [_] => none
  | k :: v :: rest =>
    if k = [] ∨ v = [] then none
    else (pairSegments rest).map fun ps => (String.mk k, String.mk v) :: ps

/-- Modelled from the spec: `parseAzureResourceID`, whose source is in another
file of the package. The identifier follows the convention
`/subscriptions/<sub>/resourceGroups/<rg>/providers/<ns>/<type>/<name>/...`;
the result carries the resource group and the `(type, name)` segments, and
parsing fails with a format error when the required segments are absent or
unpaired. -/
def parseAzureResourceID (id : String) : Except GoError ResourceID :=
  match splitSlash id.data with
  | [] :: segs =>
    match pairSegments segs with
    | some (sub :: rg :: prov :: path) =>
      if sub.1 = "subscriptions" ∧ rg.1 = "resourceGroups" ∧ prov.1 = "providers" then
        .ok { ResourceGroup := rg.2, Path := path }
      else .error (Errorf ("Cannot parse Azure Id: " ++ id))
    | _ => .error (Errorf ("Cannot parse Azure Id: " ++ id))
  | _ => .error (Errorf ("Cannot parse Azure Id: " ++ id))

/-- Helpers with the parser modelled from the spec and tags passed through. -/
def specHelpers : Helpers where
  parseAzureResourceID := parseAzureResourceID
  expandTags := fun tags => some tags

/-- A remote world that replays scripted answers. -/
structure Script where
  createErr : Option GoError
  gets : List (Site × Option GoError)
  deleteErr : Option GoError
deriving DecidableEq, Repr

/-- A site answer that carries only a status code. -/
def statusOnly (code : Nat) : Site :=
  { StatusCode := some code, ID := none, Location := none, Tags := none,
    SiteProperties := none }

/-- A site answer with status 200 and the given identifier. -/
def siteWithID (id : String) : Site :=
  { statusOnly 200 with ID := some id }

/-- A client that answers from the script: `Get` consumes the scripted
answers in order and reports not-found once they are used up. -/
def replayClient : AppsClient Script where
  CreateOrUpdate := fun _ _ _ _ _ _ _ w => (w.createErr, w)
  Get := fun _ _ w =>
    match w.gets with
    | [] => ((statusOnly StatusNotFound, some ⟨"ResourceNotFound"⟩), w)
    | r :: rest => (r, { w with gets := rest })
  Delete := fun _ _ _ _ _ w => (w.deleteErr, w)

/-- A configured App Service that has not been created yet. -/
def newApp : ResourceData :=
  { Id := "", resource_group_name := some "rg1", name := some "app",
    skip_dns_registration := none, skip_custom_domain_verification := none,
    force_dns_registration := none, ttl_in_seconds := none,
    app_service_plan_id := none, always_on := none,
    location := some "westeurope", tags := none }

/-- The identifier the platform assigns to `newApp`. -/
def appID : String :=
  "/subscriptions/s1/resourceGroups/rg1/providers/Microsoft.Web/sites/app"

/-- The state of `newApp` once created. -/
def liveApp : ResourceData := newApp.SetId appID

/-- A disk client for the state that `testAccAzureRMManagedDisk_copy`
leaves behind when only the source disk was deleted: `Get` of `acctestd1-1`
fails with not-found, `Get` of any other disk succeeds with status 200. -/
def sourceDeletedClient : DiskClient Unit where
  Get := fun _ name w =>
    if name = "acctestd1-1" then
      ((⟨some StatusNotFound, ""⟩, some ⟨"ResourceNotFound"⟩), w)
    else
      ((⟨some 200, "&disk.Properties"⟩, none), w)

/-- The resource `azurerm_managed_disk.source` of `testAccAzureRMManagedDisk_copy`. -/
def sourceDisk : ResourceState :=
  { Typ := "azurerm_managed_disk",
    Primary := some ⟨[("name", "acctestd1-1"), ("resource_group_name", "acctestRG-1")]⟩ }

/-- The resource `azurerm_managed_disk.test` of `testAccAzureRMManagedDisk_copy`. -/
def copyDisk : ResourceState :=
  { Typ := "azurerm_managed_disk",
    Primary := some ⟨[("name", "acctestd2-1"), ("resource_group_name", "acctestRG-1")]⟩ }

/-- The resource `azurerm_resource_group.test` of `testAccAzureRMManagedDisk_copy`. -/
def testGroup : ResourceState :=
  { Typ := "azurerm_resource_group", Primary := some ⟨[("name", "acctestRG-1")]⟩ }

/-- A client that forwards every call to `appClient` and keeps, next to the
remote world, the list of the calls it received with the arguments it
received them with. -/
def recordingClient {σ : Type} (appClient : AppsClient σ) : AppsClient (σ × List Call) where
  CreateOrUpdate := fun resGroup name site skipDNS skipVerification forceDNS ttl w =>
    ((appClient.CreateOrUpdate resGroup name site skipDNS skipVerification forceDNS ttl w.1).1,
     ((appClient.CreateOrUpdate resGroup name site skipDNS skipVerification forceDNS ttl w.1).2,
      w.2 ++ [.CreateOrUpdate resGroup name site skipDNS skipVerification forceDNS ttl]))
  Get := fun resGroup name w =>
    ((appClient.Get resGroup name w.1).1,
     ((appClient.Get resGroup name w.1).2, w.2 ++ [.Get resGroup name]))
  Delete := fun resGroup name deleteMetrics deleteEmptyServerFarm skipDNS w =>
    ((appClient.Delete resGroup name deleteMetrics deleteEmptyServerFarm skipDNS w.1).1,
     ((appClient.Delete resGroup name deleteMetrics deleteEmptyServerFarm skipDNS w.1).2,
      w.2 ++ [.Delete resGroup name deleteMetrics deleteEmptyServerFarm skipDNS]))

/-- Whether `sub` occurs in `msg` as a contiguous run of characters. -/
def Mentions (msg sub : String) : Prop := sub.data <:+: msg.data

instance (msg sub : String) : Decidable (Mentions msg sub) :=
  inferInstanceAs (Decidable (sub.data <:+: msg.data))

/-! ## Auxiliary facts -/

theorem mentions_mid (a s b : String) : Mentions (a ++ s ++ b) s :=
  ⟨a.data, b.data, by simp [String.data_append]⟩

theorem read_calls_cases {σ : Type} (pkg : Helpers) (appClient : AppsClient σ)
    (d : ResourceData) (w : σ) :
    (resourceArmAppServiceRead pkg appClient d w).calls = [.parseAzureResourceID d.Id] ∨
    ∃ id, pkg.parseAzureResourceID d.Id = .ok id ∧
      (resourceArmAppServiceRead pkg appClient d w).calls =
        [.parseAzureResourceID d.Id, .Get id.ResourceGroup (mapIndex id.Path "sites")] := by
  cases h : pkg.parseAzureResourceID d.Id with
  | error e => exact Or.inl (by simp [resourceArmAppServiceRead, h])
  | ok id =>
    refine Or.inr ⟨id, rfl, ?_⟩
    simp only [resourceArmAppServiceRead, h]
    split
    · split
      · rfl
      · split <;> rfl
    · rfl

theorem read_calls_no_create {σ : Type} (pkg : Helpers) (appClient : AppsClient σ)
    (d : ResourceData) (w : σ) :
    ∀ c ∈ (resourceArmAppServiceRead pkg appClient d w).calls, c.isCreateOrUpdate = false := by
  rcases read_calls_cases pkg appClient d w with h | ⟨id, _, h⟩ <;>
    simp [h, Call.isCreateOrUpdate]

theorem siteEnvelope_properties (pkg : Helpers) (d : ResourceData) :
    (siteEnvelope pkg d).SiteProperties = some
      { SiteConfig := some
          { AlwaysOn := if (GetOk d.always_on false).2 then some (GetOk d.always_on false).1
              else none },
        ServerFarmID := if (GetOk d.app_service_plan_id "").2
          then some (GetOk d.app_service_plan_id "").1 else none } := by
  unfold siteEnvelope
  rcases h1 : GetOk d.always_on false with ⟨v1, _ | _⟩ <;>
    rcases h2 : GetOk d.app_service_plan_id "" with ⟨v2, _ | _⟩ <;> simp

theorem read_error_keeps_state {σ : Type} (pkg : Helpers) (appClient : AppsClient σ)
    (d : ResourceData) (w : σ) (err : GoError)
    (h : (resourceArmAppServiceRead pkg appClient d w).result = .ret (some err)) :
    (resourceArmAppServiceRead pkg appClient d w).d = d := by
  unfold resourceArmAppServiceRead at h ⊢
  split
  · rfl
  · dsimp only at h ⊢
    split
    · split
      · rfl
      · split
        · rename_i h1 _ _ _ _ heq _ _ hs hc
          simp [h1, heq, hs, hc] at h
        · rfl
    · rename_i h1 _ _ _ heq
      simp [h1, heq] at h

theorem create_update_unfold {σ : Type} (pkg : Helpers) (appClient : AppsClient σ)
    (d : ResourceData) (w w1 w2 : σ) (read : Site) (readID : String)
    (hcreate : createOrUpdate pkg appClient d w = (none, w1))
    (hget : appClient.Get (Get d.resource_group_name "") (Get d.name "") w1
      = ((read, none), w2))
    (hid : read.ID = some readID) :
    (resourceArmAppServiceCreateUpdate pkg appClient d w).result =
      (resourceArmAppServiceRead pkg appClient (d.SetId readID) w2).result ∧
    (resourceArmAppServiceCreateUpdate pkg appClient d w).d =
      (resourceArmAppServiceRead pkg appClient (d.SetId readID) w2).d := by
  simp [resourceArmAppServiceCreateUpdate, hcreate, hget, hid]

theorem read_recorded {σ : Type} (pkg : Helpers) (appClient : AppsClient σ)
    (d : ResourceData) (w : σ) (l : List Call) :
    (resourceArmAppServiceRead pkg (recordingClient appClient) d (w, l)).remote.2 =
      l ++ (resourceArmAppServiceRead pkg appClient d w).calls.filter
        (fun c => !c.isParse) := by
  cases hp : pkg.parseAzureResourceID d.Id with
  | error e => simp [resourceArmAppServiceRead, hp, Call.isParse]
  | ok id =>
    rcases hg : appClient.Get id.ResourceGroup (mapIndex id.Path "sites") w
      with ⟨⟨resp, _ | e⟩, w1⟩
    · simp [resourceArmAppServiceRead, hp, recordingClient, hg, Call.isParse]
    · cases hs : resp.StatusCode with
      | none => simp [resourceArmAppServiceRead, hp, recordingClient, hg, hs, Call.isParse]
      | some code =>
        by_cases hc : code = StatusNotFound <;>
          simp [resourceArmAppServiceRead, hp, recordingClient, hg, hs, hc, Call.isParse]

theorem create_update_recorded {σ : Type} (pkg : Helpers) (appClient : AppsClient σ)
    (d : ResourceData) (w : σ) :
    (resourceArmAppServiceCreateUpdate pkg (recordingClient appClient) d (w, [])).remote.2 =
      (resourceArmAppServiceCreateUpdate pkg appClient d w).calls.filter
        (fun c => !c.isParse) := by
  rcases hc : appClient.CreateOrUpdate (Get d.resource_group_name "") (Get d.name "")
    (siteEnvelope pkg d) (Get d.skip_dns_registration true)
    (Get d.skip_custom_domain_verification true) (Get d.force_dns_registration false)
    (Get d.ttl_in_seconds "") w with ⟨_ | e, w1⟩
  swap
  · simp [resourceArmAppServiceCreateUpdate, createOrUpdate, recordingClient, hc,
      Call.isParse, createCall]
  rcases hg : appClient.Get (Get d.resource_group_name "") (Get d.name "") w1
    with ⟨⟨read, _ | e⟩, w2⟩
  swap
  · simp [resourceArmAppServiceCreateUpdate, createOrUpdate, recordingClient, hc, hg,
      Call.isParse, createCall]
  cases hid : read.ID with
  | none =>
    simp [resourceArmAppServiceCreateUpdate, createOrUpdate, recordingClient, hc, hg, hid,
      Call.isParse, createCall]
  | some readID =>
    have h := read_recorded pkg appClient (d.SetId readID) w2
      [createCall pkg d, .Get (Get d.resource_group_name "") (Get d.name "")]
    simp [resourceArmAppServiceCreateUpdate, createOrUpdate, recordingClient, hc, hg, hid,
      Call.isParse, createCall] at h ⊢
    exact h

/-! ## Read -/

/-- C1: when the identifier parses and the client's `Get` returns an error
together with status 404, `resourceArmAppServiceRead` returns no error and
leaves the identifier of the state set to the empty string. -/
theorem read_not_found_signals_absence {σ : Type} (pkg : Helpers) (appClient : AppsClient σ)
    (d : ResourceData) (w w1 : σ) (id : ResourceID) (resp : Site) (err : GoError)
    (hparse : pkg.parseAzureResourceID d.Id = .ok id)
    (hget : appClient.Get id.ResourceGroup (mapIndex id.Path "sites") w = ((resp, some err), w1))
    (hstatus : resp.StatusCode = some StatusNotFound) :
    (resourceArmAppServiceRead pkg appClient d w).result = .ret none ∧
    (resourceArmAppServiceRead pkg appClient d w).d.Id = "" := by
  simp [resourceArmAppServiceRead, hparse, hget, hstatus, ResourceData.SetId]

/-- An instance of C1: a live App Service whose `Get` reports not-found. -/
theorem read_not_found_signals_absence_witness :
    (resourceArmAppServiceRead specHelpers replayClient liveApp ⟨none, [], none⟩).result
      = .ret none ∧
    (resourceArmAppServiceRead specHelpers replayClient liveApp ⟨none, [], none⟩).d.Id = "" :=
  read_not_found_signals_absence specHelpers replayClient liveApp ⟨none, [], none⟩
    ⟨none, [], none⟩ ⟨"rg1", [("sites", "app")]⟩ (statusOnly StatusNotFound)
    ⟨"ResourceNotFound"⟩ rfl rfl rfl

/-- C5, as stated, fails: with resource group `rg1`, name `app` and a `Get`
that fails with status 500 and the error `boom`, the error returned by
`resourceArmAppServiceRead` mentions `app` and `boom` but not `rg1`. -/
theorem read_error_omits_resource_group :
    specHelpers.parseAzureResourceID liveApp.Id = .ok ⟨"rg1", [("sites", "app")]⟩ ∧
    replayClient.Get "rg1" "app" ⟨none, [(statusOnly 500, some ⟨"boom"⟩)], none⟩
      = ((statusOnly 500, some ⟨"boom"⟩), ⟨none, [], none⟩) ∧
    (resourceArmAppServiceRead specHelpers replayClient liveApp
        ⟨none, [(statusOnly 500, some ⟨"boom"⟩)], none⟩).result
      = .ret (some ⟨"Error making Read request on AzureRM App Service app: boom"⟩) ∧
    ¬ Mentions "Error making Read request on AzureRM App Service app: boom" "rg1" :=
  ⟨rfl, rfl, rfl, by decide⟩

/-- C5, amended: when the identifier parses and the client's `Get` fails with
a status other than 404, `resourceArmAppServiceRead` returns the error
`Error making Read request on AzureRM App Service <name>: <underlying error>`,
which mentions the resource name parsed from the identifier and the
underlying error text, and leaves the state, identifier included, unchanged. -/
theorem read_failure_is_annotated_with_name {σ : Type} (pkg : Helpers)
    (appClient : AppsClient σ) (d : ResourceData) (w w1 : σ) (id : ResourceID) (resp : Site)
    (err : GoError) (code : Nat)
    (hparse : pkg.parseAzureResourceID d.Id = .ok id)
    (hget : appClient.Get id.ResourceGroup (mapIndex id.Path "sites") w = ((resp, some err), w1))
    (hstatus : resp.StatusCode = some code) (hcode : code ≠ StatusNotFound) :
    ∃ msg : String,
      (resourceArmAppServiceRead pkg appClient d w).result = .ret (some (Errorf msg)) ∧
      msg = "Error making Read request on AzureRM App Service " ++ mapIndex id.Path "sites"
        ++ ": " ++ err.Error ∧
      Mentions msg (mapIndex id.Path "sites") ∧
      Mentions msg err.Error ∧
      (resourceArmAppServiceRead pkg appClient d w).d = d := by
  refine ⟨_, ?_, rfl, ?_, ?_, ?_⟩
  · simp [resourceArmAppServiceRead, hparse, hget, hstatus, hcode]
  · have h := mentions_mid "Error making Read request on AzureRM App Service "
      (mapIndex id.Path "sites") (": " ++ err.Error)
    simpa [String.append_assoc] using h
  · have h := mentions_mid ("Error making Read request on AzureRM App Service "
      ++ mapIndex id.Path "sites" ++ ": ") err.Error ""
    simpa using h
  · simp [resourceArmAppServiceRead, hparse, hget, hstatus, hcode]

/-- An instance of amended C5: a `Get` that fails with status 500 and the error `boom`. -/
theorem read_failure_is_annotated_with_name_witness :
    ∃ msg : String,
      (resourceArmAppServiceRead specHelpers replayClient liveApp
        ⟨none, [(statusOnly 500, some ⟨"boom"⟩)], none⟩).result = .ret (some (Errorf msg)) ∧
      msg = "Error making Read request on AzureRM App Service "
        ++ mapIndex [("sites", "app")] "sites" ++ ": " ++ "boom" ∧
      Mentions msg (mapIndex [("sites", "app")] "sites") ∧
      Mentions msg "boom" ∧
      (resourceArmAppServiceRead specHelpers replayClient liveApp
        ⟨none, [(statusOnly 500, some ⟨"boom"⟩)], none⟩).d = liveApp :=
  read_failure_is_annotated_with_name specHelpers replayClient liveApp
    ⟨none, [(statusOnly 500, some ⟨"boom"⟩)], none⟩ ⟨none, [], none⟩
    ⟨"rg1", [("sites", "app")]⟩ (statusOnly 500) ⟨"boom"⟩ 500 rfl rfl rfl (by decide)

/-- C6: when the identifier parses and the client's `Get` succeeds,
`resourceArmAppServiceRead` returns no error and changes at most the fields
`name` and `resource_group_name`, which it sets to the `sites` path segment
and the resource group parsed from the identifier; the identifier and every
other field are the same before and after. -/
theorem read_success_frame {σ : Type} (pkg : Helpers) (appClient : AppsClient σ)
    (d : ResourceData) (w w1 : σ) (id : ResourceID) (resp : Site)
    (hparse : pkg.parseAzureResourceID d.Id = .ok id)
    (hget : appClient.Get id.ResourceGroup (mapIndex id.Path "sites") w = ((resp, none), w1)) :
    (resourceArmAppServiceRead pkg appClient d w).result = .ret none ∧
    (resourceArmAppServiceRead pkg appClient d w).d =
      { d with name := some (mapIndex id.Path "sites"),
               resource_group_name := some id.ResourceGroup } ∧
    (resourceArmAppServiceRead pkg appClient d w).d.Id = d.Id ∧
    (resourceArmAppServiceRead pkg appClient d w).d.location = d.location ∧
    (resourceArmAppServiceRead pkg appClient d w).d.tags = d.tags ∧
    (resourceArmAppServiceRead pkg appClient d w).d.app_service_plan_id
      = d.app_service_plan_id ∧
    (resourceArmAppServiceRead pkg appClient d w).d.always_on = d.always_on ∧
    (resourceArmAppServiceRead pkg appClient d w).d.skip_dns_registration
      = d.skip_dns_registration ∧
    (resourceArmAppServiceRead pkg appClient d w).d.skip_custom_domain_verification
      = d.skip_custom_domain_verification ∧
    (resourceArmAppServiceRead pkg appClient d w).d.force_dns_registration
      = d.force_dns_registration ∧
    (resourceArmAppServiceRead pkg appClient d w).d.ttl_in_seconds = d.ttl_in_seconds := by
  simp [resourceArmAppServiceRead, hparse, hget, ResourceData.Set_name,
    ResourceData.Set_resource_group_name]

/-- An instance of C6: a live App Service whose `Get` succeeds. -/
theorem read_success_frame_witness :
    (resourceArmAppServiceRead specHelpers replayClient liveApp
      ⟨none, [(siteWithID appID, none)], none⟩).result = .ret none ∧
    (resourceArmAppServiceRead specHelpers replayClient liveApp
      ⟨none, [(siteWithID appID, none)], none⟩).d.Id = appID :=
  have h := read_success_frame specHelpers replayClient liveApp
    ⟨none, [(siteWithID appID, none)], none⟩ ⟨none, [], none⟩
    ⟨"rg1", [("sites", "app")]⟩ (siteWithID appID) rfl rfl
  ⟨h.1, h.2.2.1⟩

/-! ## Delete -/

/-- C7: when the identifier parses, `resourceArmAppServiceDelete` makes one
client call, `Delete` with the resource group and `sites` name parsed from the
identifier and with `deleteMetrics`, `deleteEmptyServerFarm` and
`skipDNSRegistration` all true, whatever the fields of the state hold; it
returns exactly the error that call returned, makes no `Get`, and leaves the
state as it was. -/
theorem delete_calls_client_once {σ : Type} (pkg : Helpers) (appClient : AppsClient σ)
    (d : ResourceData) (w : σ) (id : ResourceID)
    (hparse : pkg.parseAzureResourceID d.Id = .ok id) :
    (resourceArmAppServiceDelete pkg appClient d w).calls =
      [.parseAzureResourceID d.Id,
       .Delete id.ResourceGroup (mapIndex id.Path "sites") true true true] ∧
    (resourceArmAppServiceDelete pkg appClient d w).result =
      .ret (appClient.Delete id.ResourceGroup (mapIndex id.Path "sites") true true true w).1 ∧
    (resourceArmAppServiceDelete pkg appClient d w).remote =
      (appClient.Delete id.ResourceGroup (mapIndex id.Path "sites") true true true w).2 ∧
    (∀ c ∈ (resourceArmAppServiceDelete pkg appClient d w).calls, c.isGet = false) ∧
    (resourceArmAppServiceDelete pkg appClient d w).d = d := by
  simp [resourceArmAppServiceDelete, hparse, Call.isGet]

/-- An instance of C7: the state holds `skip_dns_registration = false` and the client's `Delete` fails with `Conflict`. -/
theorem delete_calls_client_once_witness :
    (resourceArmAppServiceDelete specHelpers replayClient
        { liveApp with skip_dns_registration := some false }
        ⟨none, [], some ⟨"Conflict"⟩⟩).calls =
      [.parseAzureResourceID appID, .Delete "rg1" "app" true true true] ∧
    (resourceArmAppServiceDelete specHelpers replayClient
        { liveApp with skip_dns_registration := some false }
        ⟨none, [], some ⟨"Conflict"⟩⟩).result = .ret (some ⟨"Conflict"⟩) :=
  have h := delete_calls_client_once specHelpers replayClient
    { liveApp with skip_dns_registration := some false } ⟨none, [], some ⟨"Conflict"⟩⟩
    ⟨"rg1", [("sites", "app")]⟩ rfl
  ⟨h.1, h.2.1⟩

/-! ## Create and update -/

/-- C3: if the client's `CreateOrUpdate` call yields an error, or that call
succeeds and the follow-up `Get` by `(resource_group_name, name)` yields an
error, `resourceArmAppServiceCreateUpdate` returns exactly that error value
and leaves the state, identifier included, as it was. -/
theorem create_update_propagates_error {σ : Type} (pkg : Helpers) (appClient : AppsClient σ)
    (d : ResourceData) (w : σ) (err : GoError)
    (hfail : (∃ w1, createOrUpdate pkg appClient d w = (some err, w1)) ∨
      (∃ w1 read w2, createOrUpdate pkg appClient d w = (none, w1) ∧
        appClient.Get (Get d.resource_group_name "") (Get d.name "") w1
          = ((read, some err), w2))) :
    (resourceArmAppServiceCreateUpdate pkg appClient d w).result = .ret (some err) ∧
    (resourceArmAppServiceCreateUpdate pkg appClient d w).d = d := by
  rcases hfail with ⟨w1, h⟩ | ⟨w1, read, w2, h, hget⟩
  · simp [resourceArmAppServiceCreateUpdate, h]
  · simp [resourceArmAppServiceCreateUpdate, h, hget]

/-- Two instances of C3: the create call fails, and the re-read `Get` fails. -/
theorem create_update_propagates_error_witness :
    ((resourceArmAppServiceCreateUpdate specHelpers replayClient newApp
        ⟨some ⟨"quota exceeded"⟩, [], none⟩).result = .ret (some ⟨"quota exceeded"⟩) ∧
      (resourceArmAppServiceCreateUpdate specHelpers replayClient newApp
        ⟨some ⟨"quota exceeded"⟩, [], none⟩).d = newApp) ∧
    ((resourceArmAppServiceCreateUpdate specHelpers replayClient newApp
        ⟨none, [(statusOnly 500, some ⟨"boom"⟩)], none⟩).result = .ret (some ⟨"boom"⟩) ∧
      (resourceArmAppServiceCreateUpdate specHelpers replayClient newApp
        ⟨none, [(statusOnly 500, some ⟨"boom"⟩)], none⟩).d = newApp) :=
  ⟨create_update_propagates_error specHelpers replayClient newApp
      ⟨some ⟨"quota exceeded"⟩, [], none⟩ ⟨"quota exceeded"⟩ (Or.inl ⟨_, rfl⟩),
   create_update_propagates_error specHelpers replayClient newApp
      ⟨none, [(statusOnly 500, some ⟨"boom"⟩)], none⟩ ⟨"boom"⟩
      (Or.inr ⟨_, statusOnly 500, ⟨none, [], none⟩, rfl, rfl⟩)⟩

/-- C9: if the create call and the re-read `Get` both succeed but the
returned resource carries no ID, `resourceArmAppServiceCreateUpdate` returns
the error `Cannot read App Service <name> (resource group <group>) ID`, which
names the App Service and its resource group, leaves the state as it was, and
does not invoke Read: it makes no call besides `CreateOrUpdate` and that `Get`,
whereas Read would start by calling `parseAzureResourceID`, and the remote
world is the one that `Get` left. -/
theorem create_update_missing_id {σ : Type} (pkg : Helpers) (appClient : AppsClient σ)
    (d : ResourceData) (w w1 w2 : σ) (read : Site)
    (hcreate : createOrUpdate pkg appClient d w = (none, w1))
    (hget : appClient.Get (Get d.resource_group_name "") (Get d.name "") w1
      = ((read, none), w2))
    (hid : read.ID = none) :
    ∃ msg : String,
      (resourceArmAppServiceCreateUpdate pkg appClient d w).result
        = .ret (some (Errorf msg)) ∧
      msg = "Cannot read App Service " ++ Get d.name "" ++ " (resource group "
        ++ Get d.resource_group_name "" ++ ") ID" ∧
      Mentions msg (Get d.name "") ∧
      Mentions msg (Get d.resource_group_name "") ∧
      (resourceArmAppServiceCreateUpdate pkg appClient d w).d = d ∧
      (resourceArmAppServiceCreateUpdate pkg appClient d w).calls =
        [createCall pkg d, .Get (Get d.resource_group_name "") (Get d.name "")] ∧
      (∀ c ∈ (resourceArmAppServiceCreateUpdate pkg appClient d w).calls,
        c.isParse = false) ∧
      (resourceArmAppServiceCreateUpdate pkg appClient d w).remote = w2 := by
  refine ⟨_, ?_, rfl, ?_, ?_, ?_, ?_, ?_, ?_⟩
  · simp [resourceArmAppServiceCreateUpdate, hcreate, hget, hid]
  · have h := mentions_mid "Cannot read App Service " (Get d.name "")
      (" (resource group " ++ Get d.resource_group_name "" ++ ") ID")
    simpa [String.append_assoc] using h
  · have h := mentions_mid ("Cannot read App Service " ++ Get d.name ""
      ++ " (resource group ") (Get d.resource_group_name "") ") ID"
    simpa [String.append_assoc] using h
  · simp [resourceArmAppServiceCreateUpdate, hcreate, hget, hid]
  · simp [resourceArmAppServiceCreateUpdate, hcreate, hget, hid]
  · simp [resourceArmAppServiceCreateUpdate, hcreate, hget, hid, Call.isParse, createCall]
  · simp [resourceArmAppServiceCreateUpdate, hcreate, hget, hid]

/-- An instance of C9: the re-read `Get` succeeds with a resource that has no ID. -/
theorem create_update_missing_id_witness :
    ∃ msg : String,
      (resourceArmAppServiceCreateUpdate specHelpers replayClient newApp
        ⟨none, [(statusOnly 200, none)], none⟩).result = .ret (some (Errorf msg)) ∧
      msg = "Cannot read App Service app (resource group rg1) ID" ∧
      (resourceArmAppServiceCreateUpdate specHelpers replayClient newApp
        ⟨none, [(statusOnly 200, none)], none⟩).d = newApp :=
  have ⟨msg, h1, h2, _, _, h5, _, _, _⟩ := create_update_missing_id specHelpers replayClient
    newApp ⟨none, [(statusOnly 200, none)], none⟩ ⟨none, [(statusOnly 200, none)], none⟩
    ⟨none, [], none⟩ (statusOnly 200) rfl rfl rfl
  ⟨msg, h1, h2.trans (by decide), h5⟩

/-- C2: `resourceArmAppServiceCreateUpdate` hands the `Site` payload `site` to
the client's `CreateOrUpdate`: a client that records what it receives has
received, after the handler ran, first `CreateOrUpdate` with `site` and no
other `CreateOrUpdate`, and the call log of the handler says the same. That
payload has `SiteConfig.AlwaysOn` nil whenever `GetOk` reports `always_on` as
not set and `ServerFarmID` nil whenever `GetOk` reports `app_service_plan_id`
as not set; when `GetOk` reports the field as set the payload carries the
value `GetOk` returned, which is the value in the state. An `always_on` that
is not in the state is never sent as an explicit false. -/
theorem create_update_payload_optional_fields {σ : Type} (pkg : Helpers)
    (appClient : AppsClient σ) (d : ResourceData) (w : σ) :
    ∃ (site : Site) (props : SiteProperties) (cfg : SiteConfig) (rest received : List Call),
      (resourceArmAppServiceCreateUpdate pkg appClient d w).calls =
        Call.CreateOrUpdate (Get d.resource_group_name "") (Get d.name "") site
          (Get d.skip_dns_registration true) (Get d.skip_custom_domain_verification true)
          (Get d.force_dns_registration false) (Get d.ttl_in_seconds "") :: rest ∧
      (∀ c ∈ rest, c.isCreateOrUpdate = false) ∧
      site.SiteProperties = some props ∧
      props.SiteConfig = some cfg ∧
      ((GetOk d.always_on false).2 = false → cfg.AlwaysOn = none) ∧
      ((GetOk d.always_on false).2 = true →
        cfg.AlwaysOn = some (GetOk d.always_on false).1 ∧
        d.always_on = some (GetOk d.always_on false).1) ∧
      ((GetOk d.app_service_plan_id "").2 = false → props.ServerFarmID = none) ∧
      ((GetOk d.app_service_plan_id "").2 = true →
        props.ServerFarmID = some (GetOk d.app_service_plan_id "").1 ∧
        d.app_service_plan_id = some (GetOk d.app_service_plan_id "").1) ∧
      (d.always_on = none → cfg.AlwaysOn = none) ∧
      (d.app_service_plan_id = none → props.ServerFarmID = none) ∧
      (resourceArmAppServiceCreateUpdate pkg (recordingClient appClient) d (w, [])).remote.2 =
        Call.CreateOrUpdate (Get d.resource_group_name "") (Get d.name "") site
          (Get d.skip_dns_registration true) (Get d.skip_custom_domain_verification true)
          (Get d.force_dns_registration false) (Get d.ttl_in_seconds "") :: received ∧
      (∀ c ∈ received, c.isCreateOrUpdate = false) ∧
      createOrUpdate pkg appClient d w =
        appClient.CreateOrUpdate (Get d.resource_group_name "") (Get d.name "") site
          (Get d.skip_dns_registration true) (Get d.skip_custom_domain_verification true)
          (Get d.force_dns_registration false) (Get d.ttl_in_seconds "") w := by
  obtain ⟨rest, hcalls, hrest⟩ : ∃ rest : List Call,
      (resourceArmAppServiceCreateUpdate pkg appClient d w).calls = createCall pkg d :: rest ∧
      ∀ c ∈ rest, c.isCreateOrUpdate = false := by
    unfold resourceArmAppServiceCreateUpdate
    rcases createOrUpdate pkg appClient d w with ⟨_ | e, w1⟩
    · dsimp only
      rcases appClient.Get (Get d.resource_group_name "") (Get d.name "") w1
        with ⟨⟨read, _ | e⟩, w2⟩
      · dsimp only
        cases read.ID with
        | none => exact ⟨_, rfl, by simp [Call.isCreateOrUpdate]⟩
        | some readID =>
          refine ⟨.Get (Get d.resource_group_name "") (Get d.name "") ::
            (resourceArmAppServiceRead pkg appClient (d.SetId readID) w2).calls, rfl, ?_⟩
          intro c hc
          rw [List.mem_cons] at hc
          rcases hc with rfl | hc
          · rfl
          · exact read_calls_no_create pkg appClient _ _ c hc
      · exact ⟨_, rfl, by simp [Call.isCreateOrUpdate]⟩
    · exact ⟨_, rfl, by simp⟩
  refine ⟨siteEnvelope pkg d, _, _, rest, rest.filter (fun c => !c.isParse), hcalls, hrest,
    siteEnvelope_properties pkg d, rfl, ?_, ?_, ?_, ?_, ?_, ?_, ?_, ?_, rfl⟩
  · intro h; simp [h]
  · intro h
    refine ⟨by simp [h], ?_⟩
    cases hd : d.always_on <;> simp [GetOk, hd] at h ⊢
  · intro h; simp [h]
  · intro h
    refine ⟨by simp [h], ?_⟩
    cases hd : d.app_service_plan_id <;> simp [GetOk, hd] at h ⊢
  · intro h; simp [h, GetOk]
  · intro h; simp [h, GetOk]
  · rw [create_update_recorded, hcalls]
    simp [createCall, Call.isParse]
  · intro c hc
    exact hrest c (List.mem_filter.mp hc).1

/-- An instance of C2: `always_on` is true and `app_service_plan_id` is `plan1`,
and a recording client has received them in the payload. -/
theorem create_update_payload_optional_fields_witness :
    ∃ (site : Site) (props : SiteProperties) (cfg : SiteConfig) (received : List Call),
      (resourceArmAppServiceCreateUpdate specHelpers (recordingClient replayClient)
          { newApp with always_on := some true, app_service_plan_id := some "plan1" }
          (⟨none, [(statusOnly 200, none)], none⟩, [])).remote.2 =
        Call.CreateOrUpdate "rg1" "app" site true true false "" :: received ∧
      site.SiteProperties = some props ∧
      props.SiteConfig = some cfg ∧
      cfg.AlwaysOn = some true ∧
      props.ServerFarmID = some "plan1" :=
  have ⟨site, props, cfg, _, received, _, _, h3, h4, _, h6, _, h8, _, _, h11, _, _⟩ :=
    create_update_payload_optional_fields specHelpers replayClient
      { newApp with always_on := some true, app_service_plan_id := some "plan1" }
      ⟨none, [(statusOnly 200, none)], none⟩
  ⟨site, props, cfg, received, h11, h3, h4, (h6 (by decide)).1, (h8 (by decide)).1⟩

/-- C4, as stated, fails: the create call succeeds, the re-read `Get` returns
a resource with an ID, and the `Get` of the delegated Read then reports
not-found; `resourceArmAppServiceCreateUpdate` returns no error and the
identifier of the state is empty. -/
theorem create_update_success_with_empty_identifier :
    (resourceArmAppServiceCreateUpdate specHelpers replayClient newApp
      ⟨none, [(siteWithID appID, none)], none⟩).result = .ret none ∧
    (resourceArmAppServiceCreateUpdate specHelpers replayClient newApp
      ⟨none, [(siteWithID appID, none)], none⟩).d.Id = "" :=
  ⟨rfl, rfl⟩

/-- C4, amended: with a parser that rejects the empty identifier, whenever
`resourceArmAppServiceCreateUpdate` returns without error the create call
succeeded, the re-read `Get(resource_group_name, name)` returned a resource
with an ID that parses, and either the `Get` of the delegated Read succeeded,
and then the identifier of the state is non-empty and equals that ID, or that
`Get` reported not-found (an error with status 404), and then the identifier
of the state is the empty string. -/
theorem create_update_success_identifier {σ : Type} (pkg : Helpers) (appClient : AppsClient σ)
    (d : ResourceData) (w : σ)
    (hempty : ∀ id, pkg.parseAzureResourceID "" ≠ .ok id)
    (hok : (resourceArmAppServiceCreateUpdate pkg appClient d w).result = .ret none) :
    ∃ (w1 w2 w3 : σ) (read resp : Site) (readID : String) (id : ResourceID)
      (err : Option GoError),
      createOrUpdate pkg appClient d w = (none, w1) ∧
      appClient.Get (Get d.resource_group_name "") (Get d.name "") w1 = ((read, none), w2) ∧
      read.ID = some readID ∧
      pkg.parseAzureResourceID readID = .ok id ∧
      appClient.Get id.ResourceGroup (mapIndex id.Path "sites") w2 = ((resp, err), w3) ∧
      ((err = none ∧
          (resourceArmAppServiceCreateUpdate pkg appClient d w).d.Id = readID ∧
          (resourceArmAppServiceCreateUpdate pkg appClient d w).d.Id ≠ "") ∨
       (err ≠ none ∧ resp.StatusCode = some StatusNotFound ∧
          (resourceArmAppServiceCreateUpdate pkg appClient d w).d.Id = "")) := by
  rcases hc : createOrUpdate pkg appClient d w with ⟨_ | e, w1⟩
  swap
  · simp [resourceArmAppServiceCreateUpdate, hc] at hok
  rcases hg : appClient.Get (Get d.resource_group_name "") (Get d.name "") w1
    with ⟨⟨read, _ | e⟩, w2⟩
  swap
  · simp [resourceArmAppServiceCreateUpdate, hc, hg] at hok
  cases hid : read.ID with
  | none => simp [resourceArmAppServiceCreateUpdate, hc, hg, hid] at hok
  | some readID =>
    obtain ⟨hres, hd⟩ := create_update_unfold pkg appClient d w w1 w2 read readID hc hg hid
    rw [hres] at hok
    rw [hd]
    have hsid : (d.SetId readID).Id = readID := rfl
    cases hp : pkg.parseAzureResourceID readID with
    | error e => simp [resourceArmAppServiceRead, hsid, hp] at hok
    | ok id =>
      have hne : readID ≠ "" := by
        intro h
        rw [h] at hp
        exact hempty id hp
      rcases hg2 : appClient.Get id.ResourceGroup (mapIndex id.Path "sites") w2
        with ⟨⟨resp, _ | e2⟩, w3⟩
      · refine ⟨w1, w2, w3, read, resp, readID, id, none, rfl, hg, hid, hp, hg2, Or.inl ?_⟩
        simp [resourceArmAppServiceRead, hsid, hp, hg2, ResourceData.Set_name,
          ResourceData.Set_resource_group_name, ResourceData.SetId, hne]
      · refine ⟨w1, w2, w3, read, resp, readID, id, some e2, rfl, hg, hid, hp, hg2, Or.inr ?_⟩
        cases hs : resp.StatusCode with
        | none => simp [resourceArmAppServiceRead, hsid, hp, hg2, hs] at hok
        | some code =>
          by_cases hcode : code = StatusNotFound
          · simp [resourceArmAppServiceRead, hsid, hp, hg2, hs, hcode, ResourceData.SetId]
          · simp [resourceArmAppServiceRead, hsid, hp, hg2, hs, hcode] at hok

/-- An instance of amended C4: the create call and both reads succeed. -/
theorem create_update_success_identifier_witness :
    ∃ (w1 w2 w3 : Script) (read resp : Site) (readID : String) (id : ResourceID)
      (err : Option GoError),
      createOrUpdate specHelpers replayClient newApp
        ⟨none, [(siteWithID appID, none), (siteWithID appID, none)], none⟩ = (none, w1) ∧
      replayClient.Get (Get newApp.resource_group_name "") (Get newApp.name "") w1
        = ((read, none), w2) ∧
      read.ID = some readID ∧
      specHelpers.parseAzureResourceID readID = .ok id ∧
      replayClient.Get id.ResourceGroup (mapIndex id.Path "sites") w2 = ((resp, err), w3) ∧
      ((err = none ∧
          (resourceArmAppServiceCreateUpdate specHelpers replayClient newApp
            ⟨none, [(siteWithID appID, none), (siteWithID appID, none)], none⟩).d.Id
            = readID ∧
          (resourceArmAppServiceCreateUpdate specHelpers replayClient newApp
            ⟨none, [(siteWithID appID, none), (siteWithID appID, none)], none⟩).d.Id ≠ "") ∨
       (err ≠ none ∧ resp.StatusCode = some StatusNotFound ∧
          (resourceArmAppServiceCreateUpdate specHelpers replayClient newApp
            ⟨none, [(siteWithID appID, none), (siteWithID appID, none)], none⟩).d.Id = "")) :=
  create_update_success_identifier specHelpers replayClient newApp
    ⟨none, [(siteWithID appID, none), (siteWithID appID, none)], none⟩
    (fun _ h => nomatch h) rfl

/-- C8, as stated, fails: the create call and the re-read `Get` succeed, the
`Get` of the delegated Read fails with status 500;
`resourceArmAppServiceCreateUpdate` returns an error and the identifier of the
state has changed from empty to the ID of the re-read resource. -/
theorem create_update_error_after_identifier_written :
    (resourceArmAppServiceCreateUpdate specHelpers replayClient newApp
      ⟨none, [(siteWithID appID, none), (statusOnly 500, some ⟨"boom"⟩)], none⟩).result
      = .ret (some ⟨"Error making Read request on AzureRM App Service app: boom"⟩) ∧
    newApp.Id = "" ∧
    (resourceArmAppServiceCreateUpdate specHelpers replayClient newApp
      ⟨none, [(siteWithID appID, none), (statusOnly 500, some ⟨"boom"⟩)], none⟩).d.Id
      = appID ∧
    (resourceArmAppServiceCreateUpdate specHelpers replayClient newApp
      ⟨none, [(siteWithID appID, none), (statusOnly 500, some ⟨"boom"⟩)], none⟩).d
      ≠ newApp :=
  ⟨rfl, rfl, rfl, by decide⟩

/-- C8, amended: whenever `resourceArmAppServiceRead` or
`resourceArmAppServiceDelete` returns an error the state is the same as before
the call. Whenever `resourceArmAppServiceCreateUpdate` returns an error, either
the state is the same as before the call, or the create call and the re-read
`Get` succeeded, the error is the one the delegated Read returned, and the
state differs from the one before the call only in the identifier, which is
the ID of the re-read resource. -/
theorem handlers_error_state {σ : Type} (pkg : Helpers) (appClient : AppsClient σ)
    (d : ResourceData) (w : σ) (err : GoError) :
    ((resourceArmAppServiceRead pkg appClient d w).result = .ret (some err) →
      (resourceArmAppServiceRead pkg appClient d w).d = d) ∧
    ((resourceArmAppServiceDelete pkg appClient d w).result = .ret (some err) →
      (resourceArmAppServiceDelete pkg appClient d w).d = d) ∧
    ((resourceArmAppServiceCreateUpdate pkg appClient d w).result = .ret (some err) →
      (resourceArmAppServiceCreateUpdate pkg appClient d w).d = d ∨
      ∃ (w1 w2 : σ) (read : Site) (readID : String),
        createOrUpdate pkg appClient d w = (none, w1) ∧
        appClient.Get (Get d.resource_group_name "") (Get d.name "") w1
          = ((read, none), w2) ∧
        read.ID = some readID ∧
        (resourceArmAppServiceRead pkg appClient (d.SetId readID) w2).result
          = .ret (some err) ∧
        (resourceArmAppServiceCreateUpdate pkg appClient d w).d = d.SetId readID) := by
  refine ⟨read_error_keeps_state pkg appClient d w err, ?_, ?_⟩
  · intro _
    unfold resourceArmAppServiceDelete
    split <;> rfl
  · intro herr
    rcases hc : createOrUpdate pkg appClient d w with ⟨_ | e, w1⟩
    swap
    · exact Or.inl (by simp [resourceArmAppServiceCreateUpdate, hc])
    rcases hg : appClient.Get (Get d.resource_group_name "") (Get d.name "") w1
      with ⟨⟨read, _ | e⟩, w2⟩
    swap
    · exact Or.inl (by simp [resourceArmAppServiceCreateUpdate, hc, hg])
    cases hid : read.ID with
    | none => exact Or.inl (by simp [resourceArmAppServiceCreateUpdate, hc, hg, hid])
    | some readID =>
      obtain ⟨hres, hd⟩ := create_update_unfold pkg appClient d w w1 w2 read readID hc hg hid
      rw [hres] at herr
      exact Or.inr ⟨w1, w2, read, readID, rfl, hg, hid, herr,
        hd.trans (read_error_keeps_state pkg appClient _ w2 err herr)⟩

/-- Instances of amended C8: a failing Read, a failing Delete and a failing create call. -/
theorem handlers_error_state_witness :
    (resourceArmAppServiceRead specHelpers replayClient liveApp
      ⟨none, [(statusOnly 500, some ⟨"boom"⟩)], none⟩).d = liveApp ∧
    (resourceArmAppServiceDelete specHelpers replayClient liveApp
      ⟨none, [], some ⟨"Conflict"⟩⟩).d = liveApp ∧
    (resourceArmAppServiceCreateUpdate specHelpers replayClient newApp
      ⟨some ⟨"quota exceeded"⟩, [], none⟩).d = newApp :=
  ⟨(handlers_error_state specHelpers replayClient liveApp
      ⟨none, [(statusOnly 500, some ⟨"boom"⟩)], none⟩
      ⟨"Error making Read request on AzureRM App Service app: boom"⟩).1 rfl,
   (handlers_error_state specHelpers replayClient liveApp
      ⟨none, [], some ⟨"Conflict"⟩⟩ ⟨"Conflict"⟩).2.1 rfl,
   ((handlers_error_state specHelpers replayClient newApp
      ⟨some ⟨"quota exceeded"⟩, [], none⟩ ⟨"quota exceeded"⟩).2.2 rfl).elim id
      (fun ⟨_, _, _, _, h, _⟩ => nomatch h)⟩

/-! ## The Managed Disk destroy check -/

/-- C10 at a failing input: the state holds the resource group and the two
disks of `testAccAzureRMManagedDisk_copy`; the source disk is gone (its `Get`
fails with not-found) and the copy is still found remotely (its `Get` succeeds
with status 200). Visiting the source disk first,
`testCheckAzureRMManagedDiskDestroy` returns nil at the failed `Get` and never
looks at the copy; visiting the copy first it reports that the disk still
exists. -/
theorem destroy_check_stops_at_first_get_error :
    sourceDeletedClient.Get "acctestRG-1" "acctestd2-1" ()
      = ((⟨some 200, "&disk.Properties"⟩, none), ()) ∧
    testCheckAzureRMManagedDiskDestroy sourceDeletedClient
      [testGroup, sourceDisk, copyDisk] () = (.ret none, ()) ∧
    testCheckAzureRMManagedDiskDestroy sourceDeletedClient
      [testGroup, copyDisk, sourceDisk] ()
      = (.ret (some ⟨"Managed Disk still exists: \n&disk.Properties"⟩), ()) :=
  ⟨rfl, rfl, rfl⟩

end Azurerm
